import Mathlib

/-!
# A verification development for the LLDP TLV/LLDPDU codec

Shallow embedding of the Python sources under `lldp/`:

* `lldp/tlv/portid_tlv.py`, `lldp/tlv/chassisid_tlv.py`, `lldp/tlv/ttl_tlv.py`,
  `lldp/tlv/string_tlv.py`, `lldp/tlv/systemcapabilities_tlv.py`,
  `lldp/tlv/managementaddress_tlv.py`, `lldp/tlv/organizationallyspecific_tlv.py`
  (the per-variant TLV codecs),
* `lldp/lldpdu.py` (the LLDPDU container: `append`, `complete`, `from_bytes`),
* `lldp/agent.py` (the frame classification performed inside `LLDPAgent.run`).

Byte strings are `List Nat` with entries below 256.  Python values whose runtime
type varies (the `value`/`oid`/`ifnmbr` attributes of TLV objects) are embedded
as the sum `PyVal`; Python `==` on the values that occur here coincides with
equality of `PyVal` (a `bytes` and a `bytearray` with the same content are equal
in Python and share the constructor `PyVal.bytes`; `IntEnum` members equal their
integer value and are collapsed to `Nat`).  A raised `ValueError`/`IndexError`
is an `Except.error`; `bytes([n])` with `n > 255` and attribute/type errors on
mismatched operand types surface as `Option.none` in the encoders.
-/

deriving instance DecidableEq for Except

namespace LLDP

/-- Byte strings: lists of naturals, each below 256. -/
abbrev Bytes := List Nat

/-- The exceptions raised by the sources: `raise ValueError` in the codecs and
container, and the `IndexError` of an out-of-range `bytearray` index. -/
inductive PyErr
  | valueError
  | indexError
deriving DecidableEq

/-- Python values of the dynamically typed attributes of the TLV objects.
`str` carries the UTF-8 encoding of the text; `ip4`/`ip6` carry the packed
address bytes of an `ipaddress` object; `pynone` is Python `None`. -/
inductive PyVal
  | int (n : Nat)
  | bytes (bs : Bytes)
  | str (bs : Bytes)
  | ip4 (bs : Bytes)
  | ip6 (bs : Bytes)
  | pynone
deriving DecidableEq

/-- `work_data[i]` on a `bytearray`: the byte, or an `IndexError` past the end. -/
def pyGet (bs : Bytes) (i : Nat) : Except PyErr Nat :=
  match bs[i]? with
  | some b => Except.ok b
  | none => Except.error PyErr.indexError

/-- `bytes([n])`: a one-byte string, failing (with a `ValueError`) for `n > 255`. -/
def pyByte (n : Nat) : Option Bytes :=
  if n ≤ 255 then some [n] else none

/-- A UTF-8 continuation byte (`0x80`–`0xBF`). -/
def utf8Cont (b : Nat) : Bool := 0x80 ≤ b && b ≤ 0xBF

/-- Strict UTF-8 validity of a byte string: `bytearray.decode()` succeeds
exactly on these inputs, and `str.encode()` of the decoded text returns the
input unchanged, so decoded text is carried as its UTF-8 bytes. -/
def utf8Valid : Bytes → Bool
  | [] => true
  | b :: rest =>
    if b ≤ 0x7F then utf8Valid rest
    else if 0xC2 ≤ b && b ≤ 0xDF then
      match rest with
      | c1 :: r => utf8Cont c1 && utf8Valid r
      | [] => false
    else if b = 0xE0 then
      match rest with
      | c1 :: c2 :: r => (0xA0 ≤ c1 && c1 ≤ 0xBF) && utf8Cont c2 && utf8Valid r
      | _ => false
    else if (0xE1 ≤ b && b ≤ 0xEC) || b = 0xEE || b = 0xEF then
      match rest with
      | c1 :: c2 :: r => utf8Cont c1 && utf8Cont c2 && utf8Valid r
      | _ => false
    else if b = 0xED then
      match rest with
      | c1 :: c2 :: r => (0x80 ≤ c1 && c1 ≤ 0x9F) && utf8Cont c2 && utf8Valid r
      | _ => false
    else if b = 0xF0 then
      match rest with
      | c1 :: c2 :: c3 :: r => (0x90 ≤ c1 && c1 ≤ 0xBF) && utf8Cont c2 && utf8Cont c3 && utf8Valid r
      | _ => false
    else if 0xF1 ≤ b && b ≤ 0xF3 then
      match rest with
      | c1 :: c2 :: c3 :: r => utf8Cont c1 && utf8Cont c2 && utf8Cont c3 && utf8Valid r
      | _ => false
    else if b = 0xF4 then
      match rest with
      | c1 :: c2 :: c3 :: r => (0x80 ≤ c1 && c1 ≤ 0x8F) && utf8Cont c2 && utf8Cont c3 && utf8Valid r
      | _ => false
    else false

/-! ## Port ID TLV (`lldp/tlv/portid_tlv.py`) -/

/-- A `PortIdTLV` object: `subtype` (`PortIdTLV.Subtype` is an `IntEnum`, so it
compares equal to its integer value) and the dynamically typed `value`
(MAC address subtype 3 → bytes, network address subtype 4 → ip address,
otherwise → text). -/
structure PortIdTLV where
  subtype : Nat
  value : PyVal
deriving DecidableEq

/-- `PortIdTLV.__len__`: the value-payload length in bytes, branching on the
subtype (MAC → `len(value) + 1`, network address → `len(value.packed) + 2`,
otherwise → `len(value.encode()) + 1`).  A `value` whose runtime type does not
fit the subtype's branch makes the encoder raise in the source and is `none`
here. -/
def portLen : PortIdTLV → Option Nat
  | ⟨3, PyVal.bytes bs⟩ => some (bs.length + 1)
  | ⟨4, PyVal.ip4 bs⟩ => some (bs.length + 2)
  | ⟨4, PyVal.ip6 bs⟩ => some (bs.length + 2)
  | ⟨st, PyVal.str s⟩ => if st = 3 || st = 4 then none else some (s.length + 1)
  | _ => none

/-- `PortIdTLV.__bytes__`: first byte `(2 << 1) + (len >> 7)`, second byte
`bytes([len])`, then `bytes([subtype])` and the payload (family prefix `1`/`2`
before a packed network address). -/
def portBytes (t : PortIdTLV) : Option Bytes := do
  let l ← portLen t
  let b0 ← pyByte (4 + l / 128)
  let b1 ← pyByte l
  let st ← pyByte t.subtype
  let payload ← match t.subtype, t.value with
    | 3, PyVal.bytes bs => some bs
    | 4, PyVal.ip4 bs => some ([1] ++ bs)
    | 4, PyVal.ip6 bs => some ([2] ++ bs)
    | s, PyVal.str bs => if s = 3 || s = 4 then none else some bs
    | _, _ => none
  return b0 ++ b1 ++ st ++ payload

/-- `PortIdTLV.from_bytes`: checks `data[0] >> 1 == 2` and `0 < data[2] < 8`,
then takes `data[3:]` as raw bytes (subtype 3), reparses
`ip_address(addr2Str(data[3], data[4:]))` (subtype 4), or decodes `data[3:]` as
UTF-8 text (other subtypes).  The declared length field is never consulted.
`addr2Str` followed by `ip_address` succeeds exactly when the dotted string has
four octets (family byte 1) or the hex-group string has eight groups, i.e. 16
or 17 address bytes with a trailing odd byte dropped (any other family byte). -/
def portFromBytes (data : Bytes) : Except PyErr PortIdTLV := do
  let b0 ← pyGet data 0
  if b0 / 2 ≠ 2 then throw PyErr.valueError
  let st ← pyGet data 2
  if ¬ (0 < st ∧ st < 8) then throw PyErr.valueError
  if st = 3 then
    return ⟨st, PyVal.bytes (data.drop 3)⟩
  else if st = 4 then
    let fam ← pyGet data 3
    let abs := data.drop 4
    if fam = 1 then
      if abs.length = 4 then return ⟨st, PyVal.ip4 abs⟩ else throw PyErr.valueError
    else
      if abs.length = 16 ∨ abs.length = 17 then return ⟨st, PyVal.ip6 (abs.take 16)⟩
      else throw PyErr.valueError
  else
    let tail := data.drop 3
    if utf8Valid tail then return ⟨st, PyVal.str tail⟩ else throw PyErr.valueError

/-! ## Chassis ID TLV (`lldp/tlv/chassisid_tlv.py`) -/

/-- A `ChassisIdTLV` object: `subtype` and the dynamically typed `value`
(MAC address subtype 4 → bytes, network address subtype 5 → ip address,
otherwise → text). -/
structure ChassisIdTLV where
  subtype : Nat
  value : PyVal
deriving DecidableEq

/-- `ChassisIdTLV.from_bytes` (lines 186–230): checks `data[0] >> 1 == 1`,
reads the length as `((data[0] & 1) << 9) + data[1]` without using it further,
checks `0 < data[2] < 8`, then takes `data[3:]` as raw bytes (subtype 4),
reparses `ip_address(data[4:])` — which interprets a 4-byte string as IPv4 and
a 16-byte string as IPv6 and rejects every other length — (subtype 5), or
decodes `data[3:]` as UTF-8 text (other subtypes). -/
def chassisFromBytes (data : Bytes) : Except PyErr ChassisIdTLV := do
  let b0 ← pyGet data 0
  if b0 / 2 ≠ 1 then throw PyErr.valueError
  let _ ← pyGet data 1
  let st ← pyGet data 2
  if ¬ (0 < st ∧ st < 8) then throw PyErr.valueError
  if st = 4 then
    return ⟨st, PyVal.bytes (data.drop 3)⟩
  else if st = 5 then
    let tail := data.drop 4
    if tail.length = 4 then return ⟨st, PyVal.ip4 tail⟩
    else if tail.length = 16 then return ⟨st, PyVal.ip6 tail⟩
    else throw PyErr.valueError
  else
    let tail := data.drop 3
    if utf8Valid tail then return ⟨st, PyVal.str tail⟩ else throw PyErr.valueError

/-- The header decoding used by the variant decoders
(`ChassisIdTLV.from_bytes` lines 199–205 and likewise `TTLTLV.from_bytes`):
type code `data[0] >> 1`, length `((data[0] & 1) << 9) + data[1]`. -/
def decodeHeader (b0 b1 : Nat) : Nat × Nat :=
  (b0 / 2, (b0 % 2) * 512 + b1)

/-! ## TTL TLV (`lldp/tlv/ttl_tlv.py`) -/

/-- `TTLTLV.from_bytes`: requires exactly 4 input bytes, type code 3, a decoded
length field equal to 2, and a 16-bit big-endian seconds value (which, being
two bytes, is always in `0–65535`, so the constructor's range check passes). -/
def ttlFromBytes (data : Bytes) : Except PyErr Nat := do
  if data.length ≠ 4 then throw PyErr.valueError
  let b0 ← pyGet data 0
  if b0 / 2 ≠ 3 then throw PyErr.valueError
  let b1 ← pyGet data 1
  if (b0 % 2) * 512 + b1 ≠ 2 then throw PyErr.valueError
  let hi ← pyGet data 2
  let lo ← pyGet data 3
  return hi * 256 + lo

/-! ## String-valued TLVs (`lldp/tlv/string_tlv.py`) -/

/-- `PortDescriptionTLV.from_bytes`, `SystemNameTLV.from_bytes` and
`SystemDescriptionTLV.from_bytes`, which differ only in the expected type code
(`4`, `5`, `6`): check `data[0] >> 1` against it and decode `data[2:]` as
UTF-8 text. -/
def stringTLVFromBytes (tc : Nat) (data : Bytes) : Except PyErr Bytes := do
  let b0 ← pyGet data 0
  if b0 / 2 ≠ tc then throw PyErr.valueError
  let tail := data.drop 2
  if utf8Valid tail then return tail else throw PyErr.valueError

/-! ## System Capabilities TLV (`lldp/tlv/systemcapabilities_tlv.py`) -/

/-- A `SystemCapabilitiesTLV` object: the `supported_int`, `enabled_int` and
`value` attributes set by the constructor. -/
structure SystemCapabilitiesTLV where
  supported : Nat
  enabled : Nat
  value : Nat
deriving DecidableEq

/-- `SystemCapabilitiesTLV.supports`: `capabilities == capabilities & supported_int`. -/
def supports (sup caps : Nat) : Bool := caps = Nat.land caps sup

/-- `SystemCapabilitiesTLV.__init__(supported, enabled)`: stores
`value = (supported << 16) + enabled` and the two bitmaps, then raises a
`ValueError` unless `supports(enabled)` holds, so no instance escapes the
constructor with an enabled capability that is not supported. -/
def mkSystemCapabilities (supported enabled : Nat) : Except PyErr SystemCapabilitiesTLV :=
  if supports supported enabled then
    Except.ok ⟨supported, enabled, supported * 65536 + enabled⟩
  else Except.error PyErr.valueError

/-- `SystemCapabilitiesTLV.from_bytes`: requires exactly 6 input bytes and type
code 7, reads `supported` from `data[2:4]` and `enabled` from `data[4:6]`
(big-endian), raises a `ValueError` unless `supported | enabled == supported`
and `supported & enabled == enabled`, then calls the constructor. -/
def sysCapsFromBytes (data : Bytes) : Except PyErr SystemCapabilitiesTLV :=
  match data with
  | [b0, _b1, s1, s0, e1, e0] =>
    if b0 / 2 ≠ 7 then Except.error PyErr.valueError
    else
      let supported := s1 * 256 + s0
      let enabled := e1 * 256 + e0
      if Nat.lor supported enabled ≠ supported then Except.error PyErr.valueError
      else if Nat.land supported enabled ≠ enabled then Except.error PyErr.valueError
      else mkSystemCapabilities supported enabled
  | _ => Except.error PyErr.valueError

/-! ## Management Address TLV (`lldp/tlv/managementaddress_tlv.py`) -/

/-- A `ManagementAddressTLV` object as built by `__init__(address,
interface_number, ifsubtype, oid)`: `subtype` is the interface numbering
subtype, `value` the management address, `oid` the OID bytes or `None`, and
`ifnmbr` whatever was passed as `interface_number` — an `int` when constructed
directly, but the raw 4-byte slice when built by `from_bytes`. -/
structure ManagementAddressTLV where
  subtype : Nat
  value : PyVal
  oid : PyVal
  ifnmbr : PyVal
deriving DecidableEq

/-- `ManagementAddressTLV.from_bytes` (lines 185–227): reads `data[0]` into the
variable `type` but never validates it; sets `ma_strlength = data[2] - 2`
(nonnegative for the inputs evaluated here; the source's Python `int` goes
negative for `data[2] < 2`), reparses
`ip_address(addr2Str(data[3], data[4:5+ma_strlength]))` — four octets for
family byte 1, eight hex groups i.e. 16 or 17 bytes otherwise — then reads the
interface numbering subtype at `5+ma_strlength`, the raw 4-byte interface
number slice `data[6+ma_strlength:10+ma_strlength]`, the OID length at
`10+ma_strlength` and, when it is nonzero, the OID bytes `data[11+ma_strlength:]`. -/
def mgmtFromBytes (data : Bytes) : Except PyErr ManagementAddressTLV := do
  let _ ← pyGet data 0
  let b2 ← pyGet data 2
  let ms := b2 - 2
  let fam ← pyGet data 3
  let abs := (data.drop 4).take (ms + 1)
  let addr ←
    if fam = 1 then
      if abs.length = 4 then pure (PyVal.ip4 abs) else throw PyErr.valueError
    else
      if abs.length = 16 ∨ abs.length = 17 then pure (PyVal.ip6 (abs.take 16))
      else throw PyErr.valueError
  let insubtype ← pyGet data (5 + ms)
  let ifacenmbr := (data.drop (6 + ms)).take 4
  let oidlen ← pyGet data (10 + ms)
  let oid := if oidlen ≠ 0 then PyVal.bytes (data.drop (11 + ms)) else PyVal.pynone
  return ⟨insubtype, addr, oid, PyVal.bytes ifacenmbr⟩

/-! ## Organizationally Specific TLV (`lldp/tlv/organizationallyspecific_tlv.py`) -/

/-- `OrganizationallySpecificTLV.from_bytes`: checks `data[0] >> 1 == 127`,
then reads the OUI `data[2:5]`, the one-byte organizationally defined subtype
`bytes([data[5]])` and the opaque value `data[6:]`. -/
def orgFromBytes (data : Bytes) : Except PyErr (Bytes × Bytes × Bytes) := do
  let b0 ← pyGet data 0
  if b0 / 2 ≠ 127 then throw PyErr.valueError
  let st ← pyGet data 5
  return ((data.drop 2).take 3, [st], data.drop 6)

/-- Modelled from the spec: the EndOfLLDPDU TLV decoder (the `EndOfLLDPDUTLV`
class is not among the sources).  Per the spec the TLV is the two zero bytes
`0x00 0x00` — type code 0 with a zero-length payload — and any nonzero length
on decode fails. -/
def endFromBytes (data : Bytes) : Except PyErr Unit := do
  let b0 ← pyGet data 0
  let b1 ← pyGet data 1
  if b0 / 2 ≠ 0 then throw PyErr.valueError
  if (b0 % 2) * 512 + b1 ≠ 0 then throw PyErr.valueError
  return ()

/-! ## The LLDPDU container (`lldp/lldpdu.py`)

The container only consults a TLV's `type` attribute and its byte
representation `bytes(tlv)`, so its elements are embedded as a kind
(the `TLV.Type` value) together with the wire bytes. -/

/-- The `TLV.Type` codes used by the container (`END_OF_LLDPDU = 0`,
`CHASSIS_ID = 1`, `PORT_ID = 2`, `TTL = 3`, and the optional kinds `4`–`8` and
`127`). -/
inductive TLVKind
  | endOfLLDPDU
  | chassisId
  | portId
  | ttl
  | portDescription
  | systemName
  | systemDescription
  | systemCapabilities
  | managementAddress
  | organizationallySpecific
deriving DecidableEq

/-- A TLV as seen by the container: its `TLV.Type` and its `bytes()`. -/
structure CTLV where
  kind : TLVKind
  wire : Bytes
deriving DecidableEq

/-- An `LLDPDU` object: the ordered list `self.__tlvs`. -/
structure LLDPDU where
  tlvs : List CTLV
deriving DecidableEq

/-- `LLDPDU.__bytes__`: the concatenation of the byte representations of the
TLVs in sequence order. -/
def duBytes (du : LLDPDU) : Bytes := du.tlvs.foldl (fun acc t => acc ++ t.wire) []

/-- The mandatory-or-terminator kinds listed in `LLDPDU.append` line 97. -/
def isMandatoryKind (k : TLVKind) : Bool :=
  k = TLVKind.endOfLLDPDU || k = TLVKind.chassisId || k = TLVKind.portId || k = TLVKind.ttl

/-- `LLDPDU.append` (lines 53–102), as the method's effect on the object: the
result of the call (`()` or a raised `ValueError`) together with the state of
`self` when the method returns.  The checks, in source order:
the serialized container plus the new TLV must not exceed 1500 bytes; an
EndOfLLDPDU TLV needs at least 3 prior TLVs and must not follow one already at
the end; a ChassisId TLV is only accepted at position 0, a PortId TLV at
position 1, a Ttl TLV at position 2; every other kind needs at least 3 prior
TLVs.  Only after every check passes is `tlv` appended to `self.__tlvs`;
every `raise` leaves the list untouched. -/
def append (du : LLDPDU) (t : CTLV) : Except PyErr Unit × LLDPDU :=
  if (duBytes du).length + t.wire.length > 1500 then
    (Except.error PyErr.valueError, du)
  else if t.kind = TLVKind.endOfLLDPDU ∧ du.tlvs.length < 3 then
    (Except.error PyErr.valueError, du)
  else if t.kind = TLVKind.endOfLLDPDU ∧ (du.tlvs.getLast?).map CTLV.kind = some TLVKind.endOfLLDPDU then
    (Except.error PyErr.valueError, du)
  else if t.kind = TLVKind.chassisId ∧ du.tlvs.length ≠ 0 then
    (Except.error PyErr.valueError, du)
  else if t.kind = TLVKind.portId ∧ du.tlvs.length ≠ 1 then
    (Except.error PyErr.valueError, du)
  else if t.kind = TLVKind.ttl ∧ du.tlvs.length ≠ 2 then
    (Except.error PyErr.valueError, du)
  else if ¬ isMandatoryKind t.kind ∧ du.tlvs.length < 3 then
    (Except.error PyErr.valueError, du)
  else
    (Except.ok (), ⟨du.tlvs ++ [t]⟩)

/-- `LLDPDU.complete` (lines 104–131): false when fewer than 4 TLVs are
present, otherwise true exactly when position 0 is ChassisId, position 1 is
PortId, position 2 is Ttl and the element at index `len - 1` is EndOfLLDPDU. -/
def complete (du : LLDPDU) : Bool :=
  if du.tlvs.length < 4 then false
  else if ¬ ((du.tlvs[0]?).map CTLV.kind = some TLVKind.chassisId) then false
  else if ¬ ((du.tlvs[1]?).map CTLV.kind = some TLVKind.portId) then false
  else if ¬ ((du.tlvs[2]?).map CTLV.kind = some TLVKind.ttl) then false
  else if ¬ ((du.tlvs[du.tlvs.length - 1]?).map CTLV.kind = some TLVKind.endOfLLDPDU) then false
  else true

/-! ## Frame classification (`lldp/agent.py`, inside `LLDPAgent.run`) -/

/-- The three reserved LLDP multicast destination addresses, in the order of
the membership test at `agent.py` line 87. -/
def LLDP_MULTICAST : List Bytes :=
  [[0x01, 0x80, 0xC2, 0x00, 0x00, 0x0E],
   [0x01, 0x80, 0xC2, 0x00, 0x00, 0x00],
   [0x01, 0x80, 0xC2, 0x00, 0x00, 0x03]]

/-- The classification of one received frame performed by `LLDPAgent.run`
(lines 79–98): the frame is skipped (`continue`) unless bytes 12–13 equal the
EtherType `0x88CC` and bytes 0–5 are one of the reserved LLDP multicast
destinations; a qualifying frame yields the payload slice `data[14:]`.  The
source slices out `source = data[6:12]` but never compares it against the
agent's `mac_address`, which is why `localMac` is unused here. -/
def classifyFrame (localMac data : Bytes) : Option Bytes :=
  let etherType := (data.drop 12).take 2
  if etherType ≠ [0x88, 0xCC] then none
  else
    let destination := data.take 6
    let _source := (data.drop 6).take 6
    let _ := localMac
    if ¬ (destination ∈ LLDP_MULTICAST) then none
    else some (data.drop 14)

/-! ## LLDPDU parsing (`LLDPDU.from_bytes`, lines 135–162) -/

/-- Modelled from the spec: the `TLV.from_bytes` dispatcher (the `TLV` base
class is not among the sources).  Per the spec it determines the variant from
the decoded header's type code — unknown codes fail — and decodes the chunk
with that variant's codec (the codecs embedded above); the resulting object is
summarized by its kind and its chunk of bytes. -/
def tlvFromBytes (chunk : Bytes) : Except PyErr CTLV := do
  let b0 ← pyGet chunk 0
  let ty := b0 / 2
  if ty = 0 then do let _ ← endFromBytes chunk; return ⟨TLVKind.endOfLLDPDU, chunk⟩
  else if ty = 1 then do let _ ← chassisFromBytes chunk; return ⟨TLVKind.chassisId, chunk⟩
  else if ty = 2 then do let _ ← portFromBytes chunk; return ⟨TLVKind.portId, chunk⟩
  else if ty = 3 then do let _ ← ttlFromBytes chunk; return ⟨TLVKind.ttl, chunk⟩
  else if ty = 4 then do let _ ← stringTLVFromBytes 4 chunk; return ⟨TLVKind.portDescription, chunk⟩
  else if ty = 5 then do let _ ← stringTLVFromBytes 5 chunk; return ⟨TLVKind.systemName, chunk⟩
  else if ty = 6 then do let _ ← stringTLVFromBytes 6 chunk; return ⟨TLVKind.systemDescription, chunk⟩
  else if ty = 7 then do let _ ← sysCapsFromBytes chunk; return ⟨TLVKind.systemCapabilities, chunk⟩
  else if ty = 8 then do let _ ← mgmtFromBytes chunk; return ⟨TLVKind.managementAddress, chunk⟩
  else if ty = 127 then do let _ ← orgFromBytes chunk; return ⟨TLVKind.organizationallySpecific, chunk⟩
  else throw PyErr.valueError

/-- The `while notEnd` loop of `LLDPDU.from_bytes`, with the absolute cursor
`currentID` rewritten as the remaining suffix of the input.  Each iteration
reads the type byte at the cursor (an `IndexError` when the cursor is at or
past the end of the input — the loop has no exhaustion test), rejects type
codes outside `[0,1,2,3,4,5,6,7,8,127]`, reads the length byte (ignoring the
high length bit in the type byte), decodes the chunk `data[cursor:cursor +
length + 2]` and advances by `length + 2`; a decoded EndOfLLDPDU TLV ends the
loop.  The loop consumes at least two bytes per iteration, so with
`input length + 1` units of fuel the zero-fuel branch is unreachable. -/
def parseLoopF (fuel : Nat) (rem : Bytes) : Except PyErr (List CTLV) :=
  match fuel with
  | 0 => Except.error PyErr.indexError
  | fuel + 1 =>
    match rem with
    | [] => Except.error PyErr.indexError
    | b0 :: rest =>
      if ¬ (b0 / 2) ∈ [0, 1, 2, 3, 4, 5, 6, 7, 8, 127] then Except.error PyErr.valueError
      else match rest with
        | [] => Except.error PyErr.indexError
        | b1 :: _ => do
          let t ← tlvFromBytes ((b0 :: rest).take (b1 + 2))
          if b0 / 2 = 0 then return [t]
          else do
            let ts ← parseLoopF fuel ((b0 :: rest).drop (b1 + 2))
            return t :: ts

/-- `LLDPDU(*tlvs)`: the constructor appends each TLV in order, propagating
any `ValueError` an `append` raises. -/
def appendAll (du : LLDPDU) : List CTLV → Except PyErr LLDPDU
  | [] => Except.ok du
  | t :: ts =>
    match append du t with
    | (Except.ok _, du2) => appendAll du2 ts
    | (Except.error e, _) => Except.error e

/-- `LLDPDU.from_bytes`: run the parse loop over the input, then construct
`LLDPDU(*tlvs)` from the decoded list. -/
def lldpduFromBytes (data : Bytes) : Except PyErr LLDPDU := do
  let ts ← parseLoopF (data.length + 1) data
  appendAll ⟨[]⟩ ts

/-! ## Theorems -/

/-- C1: the round-trip property `encode(decode(b)) == b` fails on the code:
`PortIdTLV.from_bytes` accepts `[4, 5, 7, 65]` (type 2, declared length 5,
subtype 7, value `"A"`) without checking the declared length against the
payload, and re-encoding the decoded value yields `[4, 2, 7, 65]`, not the
original bytes. -/
theorem c1_reencode_ignores_declared_length :
    portFromBytes [4, 5, 7, 65] = Except.ok ⟨7, PyVal.str [65]⟩ ∧
    portBytes ⟨7, PyVal.str [65]⟩ = some [4, 2, 7, 65] ∧
    [4, 2, 7, 65] ≠ ([4, 5, 7, 65] : Bytes) := by decide

set_option maxRecDepth 8000 in
/-- C2: the header bit-packing deviates from
`byte0 = (t << 1) | (length >> 8)`: `PortIdTLV.__bytes__` packs
`(2 << 1) + (length >> 7)`, so a length of 130 already spills into the type
bits (byte 0 becomes 5, not 4), the decoder reconstructs the length as
`(byte0 & 1) << 9 | byte1 = 642` rather than 130, and a length of 301 — well
inside the claimed 0–511 domain — fails to encode because the length byte is
built with `bytes([length])`. -/
theorem c2_header_packing_deviates :
    portBytes ⟨7, PyVal.str (List.replicate 129 65)⟩ =
      some (5 :: 130 :: 7 :: List.replicate 129 65) ∧
    decodeHeader 5 130 = (2, 642) ∧ ((2, 642) : Nat × Nat) ≠ (2, 130) ∧
    portBytes ⟨7, PyVal.str (List.replicate 300 65)⟩ = none := by decide

/-- C3: `LLDPDU.append` does not reject every TLV arriving after an
EndOfLLDPDU TLV: starting from the empty LLDPDU, the four appends
ChassisId, PortId, Ttl, EndOfLLDPDU all succeed, and a subsequent SystemName
TLV is accepted as well, because the appended-after-end check is only applied
when the new TLV is itself an EndOfLLDPDU. -/
theorem c3_optional_tlv_accepted_after_end :
    appendAll ⟨[]⟩
      [⟨TLVKind.chassisId, [2, 2, 7, 65]⟩, ⟨TLVKind.portId, [4, 2, 7, 65]⟩,
       ⟨TLVKind.ttl, [6, 2, 0, 60]⟩, ⟨TLVKind.endOfLLDPDU, [0, 0]⟩] =
      Except.ok ⟨[⟨TLVKind.chassisId, [2, 2, 7, 65]⟩, ⟨TLVKind.portId, [4, 2, 7, 65]⟩,
       ⟨TLVKind.ttl, [6, 2, 0, 60]⟩, ⟨TLVKind.endOfLLDPDU, [0, 0]⟩]⟩ ∧
    append ⟨[⟨TLVKind.chassisId, [2, 2, 7, 65]⟩, ⟨TLVKind.portId, [4, 2, 7, 65]⟩,
       ⟨TLVKind.ttl, [6, 2, 0, 60]⟩, ⟨TLVKind.endOfLLDPDU, [0, 0]⟩]⟩
      ⟨TLVKind.systemName, [10, 1, 65]⟩ =
      (Except.ok (), ⟨[⟨TLVKind.chassisId, [2, 2, 7, 65]⟩, ⟨TLVKind.portId, [4, 2, 7, 65]⟩,
       ⟨TLVKind.ttl, [6, 2, 0, 60]⟩, ⟨TLVKind.endOfLLDPDU, [0, 0]⟩,
       ⟨TLVKind.systemName, [10, 1, 65]⟩]⟩) := by decide

/-- C4: `complete` returns true exactly when the LLDPDU has at least four
TLVs, position 0 is ChassisId, position 1 is PortId, position 2 is Ttl and the
last TLV is EndOfLLDPDU; it is false on the empty LLDPDU, on `[ChassisId]` and
on `[ChassisId, PortId, Ttl]`, and true on
`[ChassisId, PortId, Ttl, EndOfLLDPDU]`. -/
theorem c4_complete_iff_structure :
    (∀ du : LLDPDU, complete du = true ↔
      (4 ≤ du.tlvs.length ∧
       (du.tlvs[0]?).map CTLV.kind = some TLVKind.chassisId ∧
       (du.tlvs[1]?).map CTLV.kind = some TLVKind.portId ∧
       (du.tlvs[2]?).map CTLV.kind = some TLVKind.ttl ∧
       (du.tlvs.getLast?).map CTLV.kind = some TLVKind.endOfLLDPDU)) ∧
    complete ⟨[]⟩ = false ∧
    complete ⟨[⟨TLVKind.chassisId, [2, 2, 7, 65]⟩]⟩ = false ∧
    complete ⟨[⟨TLVKind.chassisId, [2, 2, 7, 65]⟩, ⟨TLVKind.portId, [4, 2, 7, 65]⟩,
      ⟨TLVKind.ttl, [6, 2, 0, 60]⟩]⟩ = false ∧
    complete ⟨[⟨TLVKind.chassisId, [2, 2, 7, 65]⟩, ⟨TLVKind.portId, [4, 2, 7, 65]⟩,
      ⟨TLVKind.ttl, [6, 2, 0, 60]⟩, ⟨TLVKind.endOfLLDPDU, [0, 0]⟩]⟩ = true := by
  refine ⟨?_, by decide, by decide, by decide, by decide⟩
  intro du
  have hlast : du.tlvs.getLast? = du.tlvs[du.tlvs.length - 1]? :=
    List.getLast?_eq_getElem? du.tlvs
  constructor
  · intro hc
    unfold complete at hc
    split_ifs at hc with h1 h2 h3 h4 h5
    · exact ⟨by omega, h2, h3, h4, by rw [hlast]; exact h5⟩
    all_goals exact absurd hc (by simp)
  · rintro ⟨hlen, hc, hp, ht, he⟩
    rw [hlast] at he
    unfold complete
    split_ifs with h1 h2 h3 h4 h5 <;>
      first
        | rfl
        | omega
        | simp_all

/-- C5: the frame filter accepts a self-originated frame: with local MAC
`AA:BB:CC:DD:EE:FF`, a frame to the LLDP multicast address `01:80:C2:00:00:00`
with EtherType `0x88CC` whose source equals the local MAC is classified as
LLDP and yields the 14-byte-offset payload, because the extracted source bytes
are never compared against the local MAC.  (A frame with EtherType `0x0800` is
rejected, as the claim states.) -/
theorem c5_self_originated_frame_accepted :
    classifyFrame [0xAA, 0xBB, 0xCC, 0xDD, 0xEE, 0xFF]
      ([0x01, 0x80, 0xC2, 0x00, 0x00, 0x00] ++ [0xAA, 0xBB, 0xCC, 0xDD, 0xEE, 0xFF] ++
        [0x88, 0xCC] ++ [2, 2, 7, 65]) = some [2, 2, 7, 65] ∧
    classifyFrame [0xAA, 0xBB, 0xCC, 0xDD, 0xEE, 0xFF]
      ([0x01, 0x80, 0xC2, 0x00, 0x00, 0x00] ++ [0x12, 0x34, 0x56, 0x78, 0x9A, 0xBC] ++
        [0x08, 0x00] ++ [2, 2, 7, 65]) = none := by decide

/-- C6: an `append` that raises leaves the LLDPDU exactly as it was: the state
after the failed call equals the state before it, with the same number of
TLVs and the same serialized bytes. -/
theorem c6_failed_append_is_noop (du : LLDPDU) (t : CTLV) (e : PyErr)
    (h : (append du t).1 = Except.error e) :
    (append du t).2 = du ∧
    (append du t).2.tlvs.length = du.tlvs.length ∧
    duBytes (append du t).2 = duBytes du := by
  unfold append at h ⊢
  split_ifs at h ⊢ <;> simp_all

/-- Witness for C6: appending a PortId TLV to the empty LLDPDU fails and
leaves the empty LLDPDU unchanged. -/
theorem c6_witness :
    (append ⟨[]⟩ ⟨TLVKind.portId, [4, 2, 7, 65]⟩).2 = ⟨[]⟩ ∧
    (append ⟨[]⟩ ⟨TLVKind.portId, [4, 2, 7, 65]⟩).2.tlvs.length =
      (LLDPDU.mk []).tlvs.length ∧
    duBytes (append ⟨[]⟩ ⟨TLVKind.portId, [4, 2, 7, 65]⟩).2 = duBytes ⟨[]⟩ :=
  c6_failed_append_is_noop ⟨[]⟩ ⟨TLVKind.portId, [4, 2, 7, 65]⟩ PyErr.valueError (by decide)

/-- C7: parsing input that ends before any EndOfLLDPDU TLV does not return the
LLDPDU decoded so far — the parse loop rereads the type byte at the advanced
cursor without an exhaustion test and fails with an index error: on the single
well-formed ChassisId TLV `[2, 2, 7, 65]` the loop decodes the TLV, advances
past the end of the input and raises. -/
theorem c7_exhausted_input_raises_index_error :
    lldpduFromBytes [2, 2, 7, 65] = Except.error PyErr.indexError := by decide

/-- C8: `ManagementAddressTLV.from_bytes` reads the type byte but never
validates it: a byte string whose header carries type code 0 (first byte
`0x00`) is decoded into a ManagementAddress value instead of failing, while
`ChassisIdTLV.from_bytes` does reject a type-code mismatch. -/
theorem c8_mgmt_decoder_skips_type_check :
    chassisFromBytes [4, 2, 7, 65] = Except.error PyErr.valueError ∧
    mgmtFromBytes [0, 12, 5, 1, 192, 0, 2, 1, 1, 0, 0, 0, 60, 0] =
      Except.ok ⟨1, PyVal.ip4 [192, 0, 2, 1], PyVal.pynone, PyVal.bytes [0, 0, 0, 60]⟩ := by
  decide

/-- C9: every SystemCapabilities instance observable through the constructor or
the byte decoder satisfies `enabled & supported == enabled`; constructing with
`supported = 0b01, enabled = 0b10` fails and with
`supported = 0b11, enabled = 0b01` succeeds. -/
theorem c9_capability_subset_law :
    (∀ s e tlv, mkSystemCapabilities s e = Except.ok tlv →
      Nat.land tlv.enabled tlv.supported = tlv.enabled) ∧
    (∀ b tlv, sysCapsFromBytes b = Except.ok tlv →
      Nat.land tlv.enabled tlv.supported = tlv.enabled) ∧
    mkSystemCapabilities 1 2 = Except.error PyErr.valueError ∧
    mkSystemCapabilities 3 1 = Except.ok ⟨3, 1, 196609⟩ := by
  have hmk : ∀ s e tlv, mkSystemCapabilities s e = Except.ok tlv →
      Nat.land tlv.enabled tlv.supported = tlv.enabled := by
    intro s e tlv h
    unfold mkSystemCapabilities at h
    split_ifs at h with hs
    cases h
    simp only [supports, decide_eq_true_eq] at hs
    exact hs.symm
  refine ⟨hmk, ?_, by decide, by decide⟩
  intro b tlv h
  rcases b with - | ⟨b0, - | ⟨b1, - | ⟨s1, - | ⟨s0, - | ⟨e1, - | ⟨e0, - | ⟨x, xs⟩⟩⟩⟩⟩⟩⟩ <;>
    simp only [sysCapsFromBytes] at h <;>
    first
      | exact Except.noConfusion h
      | (split_ifs at h <;> first | exact hmk _ _ _ h | exact Except.noConfusion h)

/-- Witness for C9: instantiating the constructor law at
`supported = 0b11, enabled = 0b01`. -/
theorem c9_witness : Nat.land 1 3 = 1 :=
  c9_capability_subset_law.1 3 1 ⟨3, 1, 196609⟩ (by decide)

/-- C10: a successful `append` extends the TLV sequence by exactly the given
TLV at the end: the new list is the old list with the TLV appended, the length
grows by one, every previously occupied position is unchanged, and the new
last element is the appended TLV. -/
theorem c10_successful_append_extends (du : LLDPDU) (t : CTLV)
    (h : (append du t).1 = Except.ok ()) :
    (append du t).2.tlvs = du.tlvs ++ [t] ∧
    (append du t).2.tlvs.length = du.tlvs.length + 1 ∧
    (∀ i, i < du.tlvs.length → (append du t).2.tlvs[i]? = du.tlvs[i]?) ∧
    (append du t).2.tlvs.getLast? = some t := by
  unfold append at h ⊢
  split_ifs at h ⊢ <;> try exact Except.noConfusion h
  refine ⟨rfl, by simp, ?_, List.getLast?_concat _⟩
  intro i hi
  exact List.getElem?_append_left hi

/-- Witness for C10: appending a ChassisId TLV to the empty LLDPDU succeeds
and produces the one-element sequence. -/
theorem c10_witness :
    (append ⟨[]⟩ ⟨TLVKind.chassisId, [2, 2, 7, 65]⟩).2.tlvs =
      (LLDPDU.mk []).tlvs ++ [⟨TLVKind.chassisId, [2, 2, 7, 65]⟩] ∧
    (append ⟨[]⟩ ⟨TLVKind.chassisId, [2, 2, 7, 65]⟩).2.tlvs.length =
      (LLDPDU.mk []).tlvs.length + 1 ∧
    (∀ i, i < (LLDPDU.mk []).tlvs.length →
      (append ⟨[]⟩ ⟨TLVKind.chassisId, [2, 2, 7, 65]⟩).2.tlvs[i]? =
        (LLDPDU.mk []).tlvs[i]?) ∧
    (append ⟨[]⟩ ⟨TLVKind.chassisId, [2, 2, 7, 65]⟩).2.tlvs.getLast? =
      some ⟨TLVKind.chassisId, [2, 2, 7, 65]⟩ :=
  c10_successful_append_extends ⟨[]⟩ ⟨TLVKind.chassisId, [2, 2, 7, 65]⟩ (by decide)

end LLDP
